import Mathlib

/-!
Verification development for the cip-library repository: a JavaScript client
engine for the Common Industrial Protocol (CIP) over an EtherNet/IP-style TCP
encapsulation.  The JavaScript sources (cipParser.js, cipDataTypes.js,
cipErrorCodes.js, cipClient.js, secureCIPClient.js, CipConnFields.js) are
shallowly embedded here: Node Buffers become lists of byte values (`List Nat`,
each entry < 256 where produced by the embedded writers), fallible operations
return `Except JsErr`, and JavaScript numbers that the library manipulates as
integers become `Int`/`Nat` with explicit wrap-around where the code performs
32-bit coercions.  IEEE-754 floats are never computed with by the library
(they are only transported), so a decoded float is represented by its raw bit
pattern.
-/

/-- The descriptor object returned by CIPErrorParser.parse (cipErrorCodes.js):
{ code, extendedCode, name, description, isRecoverable }. -/
structure CIPErrorDescriptor where
  code : Nat
  extendedCode : Nat
  name : String
  description : String
  isRecoverable : Bool
  deriving DecidableEq, Repr

/-- Failure outcomes of the embedded JavaScript functions.  The sources throw
plain `Error` objects distinguished by message; each distinct failure site is
given its own constructor.  `referenceError` models a JavaScript
ReferenceError raised by evaluating an undeclared identifier, and
`rangeError` models the ERR_OUT_OF_RANGE errors thrown by Node Buffer
read/write methods on out-of-bounds offsets or out-of-range values.
`typeError` models Node rejecting a non-number value in a numeric Buffer
write.  `protocolStatus` carries the descriptor built by CIPErrorParser.parse
together with the raw response bytes the parser attaches to it.  `outOfFuel`
is an artifact of the fuelled embedding of the recursive decoder and is
unreachable for the fuel budgets used (see `CIPDataTypeDecoder.decode`). -/
inductive JsErr : Type where
  | referenceError (ident : String)
  | validationError (field : String)
  | missingIdentifier
  | unsupportedDataType (code : Nat)
  | responseFormat (msg : String)
  | protocolStatus (descriptor : CIPErrorDescriptor) (rawResponse : List Nat)
  | rangeError
  | typeError
  | notPointToPoint
  | sessionNotActive
  | sessionAlreadyActive
  | invalidSessionResponse
  | sessionRegistrationFailed (statusCode : Nat)
  | invalidResponseLength
  | sessionHandleMismatch
  | macVerificationFailed
  | outOfFuel
  deriving DecidableEq, Repr

/-! ## Node Buffer primitives

Reads and writes used by the sources, on `List Nat` byte lists.  Node throws
ERR_OUT_OF_RANGE when a read would run past the end of the buffer or a write
value does not fit the field, which the embedding mirrors with
`Except JsErr`. -/

/-- Buffer.readUInt8(off). -/
def readUInt8 (d : List Nat) (off : Nat) : Except JsErr Nat :=
  if off + 1 ≤ d.length then .ok (d.getD off 0) else .error .rangeError

/-- Buffer.readUInt16BE(off). -/
def readUInt16BE (d : List Nat) (off : Nat) : Except JsErr Nat :=
  if off + 2 ≤ d.length then .ok (256 * d.getD off 0 + d.getD (off + 1) 0)
  else .error .rangeError

/-- Buffer.readUInt16LE(off). -/
def readUInt16LE (d : List Nat) (off : Nat) : Except JsErr Nat :=
  if off + 2 ≤ d.length then .ok (d.getD off 0 + 256 * d.getD (off + 1) 0)
  else .error .rangeError

/-- Buffer.readUInt32LE(off). -/
def readUInt32LE (d : List Nat) (off : Nat) : Except JsErr Nat :=
  if off + 4 ≤ d.length then
    .ok (d.getD off 0 + 256 * d.getD (off + 1) 0 + 65536 * d.getD (off + 2) 0 +
      16777216 * d.getD (off + 3) 0)
  else .error .rangeError

/-- Buffer.readUInt32BE(off). -/
def readUInt32BE (d : List Nat) (off : Nat) : Except JsErr Nat :=
  if off + 4 ≤ d.length then
    .ok (16777216 * d.getD off 0 + 65536 * d.getD (off + 1) 0 +
      256 * d.getD (off + 2) 0 + d.getD (off + 3) 0)
  else .error .rangeError

/-- Two's-complement reading of an 8-bit unsigned value. -/
def signed8 (u : Nat) : Int := if u < 128 then (u : Int) else (u : Int) - 256

/-- Two's-complement reading of a 16-bit unsigned value. -/
def signed16 (u : Nat) : Int := if u < 32768 then (u : Int) else (u : Int) - 65536

/-- Two's-complement reading of a 32-bit unsigned value. -/
def signed32 (u : Nat) : Int :=
  if u < 2147483648 then (u : Int) else (u : Int) - 4294967296

/-- Buffer.readInt8(off). -/
def readInt8 (d : List Nat) (off : Nat) : Except JsErr Int :=
  (readUInt8 d off).map signed8

/-- Buffer.readInt16LE(off). -/
def readInt16LE (d : List Nat) (off : Nat) : Except JsErr Int :=
  (readUInt16LE d off).map signed16

/-- Buffer.readInt16BE(off). -/
def readInt16BE (d : List Nat) (off : Nat) : Except JsErr Int :=
  (readUInt16BE d off).map signed16

/-- Buffer.readInt32LE(off). -/
def readInt32LE (d : List Nat) (off : Nat) : Except JsErr Int :=
  (readUInt32LE d off).map signed32

/-- Buffer.readInt32BE(off). -/
def readInt32BE (d : List Nat) (off : Nat) : Except JsErr Int :=
  (readUInt32BE d off).map signed32

/-- Little-endian bytes of a 16-bit value. -/
def le16 (v : Nat) : List Nat := [v % 256, v / 256 % 256]

/-- Big-endian bytes of a 16-bit value. -/
def be16 (v : Nat) : List Nat := [v / 256 % 256, v % 256]

/-- Little-endian bytes of a 32-bit value. -/
def le32 (v : Nat) : List Nat :=
  [v % 256, v / 256 % 256, v / 65536 % 256, v / 16777216 % 256]

/-- Big-endian bytes of a 32-bit value. -/
def be32 (v : Nat) : List Nat :=
  [v / 16777216 % 256, v / 65536 % 256, v / 256 % 256, v % 256]

/-- JavaScript ToInt32: wrap an integer into the signed 32-bit range (the
conversion applied by the bitwise operators in the sources). -/
def toInt32 (v : Int) : Int := (v + 2147483648) % 4294967296 - 2147483648

/-- JavaScript `value & 0xFF` on an integer: ToInt32 then the low byte. -/
def jsAnd255 (v : Int) : Nat := (toInt32 v % 256).toNat

/-- JavaScript `value >> 8` on an integer: ToInt32 then an arithmetic right
shift by 8, which is floor division by 256 (Euclidean division by the
positive constant 256 coincides with floor division). -/
def jsShr8 (v : Int) : Int := toInt32 v / 256

/-! ## cipErrorCodes.js

The static error-code table (the second, English copy of the file) and the
`CIPErrorParser` class. -/

/-- The CIP_ERROR_CODES object literal: status code to { name, description }. -/
def CIP_ERROR_CODES : List (Nat × String × String) :=
  [(0x00, ("Success", "Operation successful")),
   (0x01, ("ConnectionFailure", "Connection failed")),
   (0x02, ("ResourceUnavailable", "Resource unavailable")),
   (0x03, ("InvalidParameter", "Invalid parameter")),
   (0x04, ("PathProcessingFailure", "Path processing failure")),
   (0x05, ("PathDestinationUnknown", "Destination path unknown")),
   (0x06, ("PartialTransfer", "Partial data transfer")),
   (0x07, ("ConnectionLost", "Connection lost")),
   (0x08, ("ServiceNotSupported", "Service not supported")),
   (0x09, ("AttributeNotSupported", "Attribute not supported")),
   (0x0A, ("AttributeListError", "Attribute list error")),
   (0x0B, ("AlreadyInRequestedMode", "Already in requested mode")),
   (0x0C, ("ObjectStateConflict", "Object state conflict")),
   (0x0D, ("ObjectAlreadyExists", "Object already exists")),
   (0x0E, ("AttributeNotSettable", "Attribute not settable")),
   (0x0F, ("PrivilegeViolation", "Insufficient privileges")),
   (0x10, ("DeviceStateConflict", "Device is not in the correct mode")),
   (0x11, ("ReplyDataTooLarge", "Response data packet is too large")),
   (0x12, ("FragmentationOfPrimitive", "Primitive value will be fragmented")),
   (0x13, ("NotEnoughData", "Not enough data")),
   (0x14, ("AttributeNotFound", "Attribute not found")),
   (0x15, ("TooMuchData", "Service provided data exceeds expectations")),
   (0x16, ("ObjectDoesNotExist", "Specified object does not exist")),
   (0x17, ("NoFragmentation", "Fragmentation not activated")),
   (0x18, ("DataNotSaved", "Attribute data not saved")),
   (0x19, ("DataWriteFailure", "Attribute data write failure")),
   (0x1A, ("RequestTooLarge", "Routing failure: request too large")),
   (0x1B, ("ResponseTooLarge", "Routing failure: response too large")),
   (0x1C, ("MissingListData", "Attribute data not found in the list")),
   (0x1D, ("InvalidListStatus", "Returned attribute status list")),
   (0x1E, ("ServiceError", "Embedded service failure")),
   (0x1F, ("ConnectionRelatedFailure", "Connection handling error")),
   (0x21, ("WriteOnceFailure", "Write once has been completed")),
   (0x22, ("InvalidReply", "Received invalid reply")),
   (0x23, ("BufferInvalidSize", "Buffer size mismatch")),
   (0x24, ("InvalidAttributeData", "Invalid attribute data")),
   (0x25, ("InvalidKeySegmentInPath", "Electronic key failure in the path")),
   (0x26, ("InvalidPathSize", "Invalid path size")),
   (0x27, ("UnexpectedAttribute", "Attribute cannot be set at this time")),
   (0x28, ("InvalidMember", "Member ID does not exist in the list")),
   (0x29, ("MemberNotSettable", "Cannot set member value")),
   (0x2A, ("DnetGroup2OnlyServer", "Only Dnet group 2 server error")),
   (0x2B, ("DisqualifiedRedundancyMode", "Redundant mode has been disqualified")),
   (0x2C, ("PrimaryMode", "Redundant mode is primary")),
   (0x2D, ("InstanceNotDeletable", "Requested object instance cannot be deleted")),
   (0x2E, ("SecondaryMode", "Redundant mode is secondary")),
   (0x2F, ("InvalidServiceForPath", "Service not supported for the specified path")),
   (0x61, ("NvsUpdateInProgress", "Special bypass update")),
   (0xFB, ("MessagePortNotSupported", "Message port not supported")),
   (0xFF, ("GeneralError", "General error")),
   (0x1000, ("VendorSpecificError", "Vendor specific error codes"))]

/-- CIP_ERROR_CODES[statusCode]: property lookup in the table. -/
def lookupErrorCode (statusCode : Nat) : Option (String × String) :=
  (CIP_ERROR_CODES.find? (fun p => p.1 = statusCode)).map (·.2)

namespace CIPErrorParser

/-- CIPErrorParser.isRecoverableError: membership in the fixed list
[0x02, 0x06, 0x07]. -/
def isRecoverableError (code : Nat) : Bool :=
  [0x02, 0x06, 0x07].contains code

/-- CIPErrorParser.parse(statusCode, extendedStatus): looks the status up in
CIP_ERROR_CODES, defaulting to an UnknownError entry whose description embeds
the numeric code, and attaches the recoverability classification. -/
def parse (statusCode : Nat) (extendedStatus : Nat) : CIPErrorDescriptor :=
  let entry := (lookupErrorCode statusCode).getD
    ("UnknownError",
      "Unknown error (Code: 0x" ++ String.mk (Nat.toDigits 16 statusCode) ++ ")")
  { code := statusCode
    extendedCode := extendedStatus
    name := entry.1
    description := entry.2
    isRecoverable := isRecoverableError statusCode }

end CIPErrorParser

/-! ## cipDataTypes.js

The CIP_DATA_TYPES registry and the CIPDataTypeDecoder class.  Registry
entries in the source also carry per-type encode closures; those closures are
never invoked by the repository (CIPParser.encodeData has its own switch), so
only the code and size fields are embedded. -/

/-- One registry entry: { code, size } (size null for variable-size types). -/
structure CIPTypeEntry where
  code : Nat
  size : Option Nat
  deriving DecidableEq, Repr

/-- The CIP_DATA_TYPES object literal, in property-insertion order
(BOOL, SINT, INT, DINT, REAL, STRING, ARRAY, STRUCT, LREAL), keyed by the
property names. -/
def CIP_DATA_TYPES : List (String × CIPTypeEntry) :=
  [("BOOL", ⟨0xC1, some 1⟩),
   ("SINT", ⟨0xC2, some 1⟩),
   ("INT", ⟨0xC3, some 2⟩),
   ("DINT", ⟨0xC4, some 4⟩),
   ("REAL", ⟨0xCA, some 4⟩),
   ("STRING", ⟨0xDA, none⟩),
   ("ARRAY", ⟨0xE0, none⟩),
   ("STRUCT", ⟨0xE1, none⟩),
   ("LREAL", ⟨0xCB, some 8⟩)]

/-- Object.values(CIP_DATA_TYPES).find(t => t.code === typeCode)
(cipDataTypes.js line 44). -/
def findTypeByCode (typeCode : Nat) : Option CIPTypeEntry :=
  (CIP_DATA_TYPES.map (·.2)).find? (fun t => t.code = typeCode)

/-- The expression CIP_DATA_TYPES[elementType]?.size || 0 (cipDataTypes.js
lines 78 and 94).  JavaScript property access converts the numeric
elementType to its decimal string, and CIP_DATA_TYPES is keyed by the type
names ("BOOL", "SINT", ...), so the lookup is by the decimal numeral of the
code; a null size (and an absent entry) falls back to 0 through `|| 0`. -/
def elementSizeLookup (elementType : Nat) : Nat :=
  match CIP_DATA_TYPES.find? (fun p => p.1 = toString elementType) with
  | some p => p.2.size.getD 0
  | none => 0

/-- Decoded CIP values.  `real` carries the raw IEEE-754 bit pattern read by
Buffer.readFloatLE/BE (the library never computes with floats, it only
transports them).  `str` carries the byte values produced by
Buffer.toString("ascii"), which unsets the high bit of each byte.
`buffer` is the raw Buffer returned by the decoder's default branch. -/
inductive CIPValue : Type where
  | bool (b : Bool)
  | int (v : Int)
  | real (bits : Nat)
  | str (bytes : List Nat)
  | buffer (raw : List Nat)
  | array (elems : List CIPValue)
  | structv (members : List (Nat × CIPValue))

/-! The decoder recursion (CIPDataTypeDecoder.decode via decodeArray and
decodeStruct) is embedded with an explicit fuel parameter that counts the
depth of compound-type nesting only: the element/member loops iterate by
structural recursion on the 16-bit count exactly as the JavaScript for-loops
iterate, without spending fuel.  The wrapper `CIPDataTypeDecoder.decode`
supplies a budget no execution can exhaust: one fuel unit is spent per
compound nesting level, and because `elementSizeLookup` yields 0 for every
code, a nested compound element always receives an empty slice and fails at
its first header read, so the nesting depth of any execution is at most 3. -/

/-- The for-loop of CIPDataTypeDecoder.decodeArray (cipDataTypes.js lines
77-82), with `dec` the recursive CIPDataTypeDecoder.decode call: per
element, the size comes from `elementSizeLookup`, the element data is the
slice of that size at the current offset, the element is decoded
recursively, and the offset advances by the size. -/
def arrayLoop (dec : Nat → List Nat → Bool → Except JsErr CIPValue)
    (data : List Nat) (isBigEndian : Bool) (elementType : Nat) :
    Nat → Nat → Except JsErr (List CIPValue)
  | 0, _ => .ok []
  | count + 1, offset =>
    let elementSize := elementSizeLookup elementType
    let elementData := (data.drop offset).take elementSize
    match dec elementType elementData isBigEndian with
    | .error e => .error e
    | .ok v =>
      match arrayLoop dec data isBigEndian elementType count
          (offset + elementSize) with
      | .error e => .error e
      | .ok rest => .ok (v :: rest)

/-- The for-loop of CIPDataTypeDecoder.decodeStruct (cipDataTypes.js lines
91-101): per member, a u16BE type code at the current offset, then a slice
of `elementSizeLookup` bytes decoded recursively; the offset advances past
the type code and the slice. -/
def structLoop (dec : Nat → List Nat → Bool → Except JsErr CIPValue)
    (data : List Nat) (isBigEndian : Bool) :
    Nat → Nat → Except JsErr (List (Nat × CIPValue))
  | 0, _ => .ok []
  | count + 1, offset =>
    match readUInt16BE data offset with
    | .error e => .error e
    | .ok memberType =>
      let memberSize := elementSizeLookup memberType
      let memberData := (data.drop (offset + 2)).take memberSize
      match dec memberType memberData isBigEndian with
      | .error e => .error e
      | .ok v =>
        match structLoop dec data isBigEndian count (offset + 2 + memberSize) with
        | .error e => .error e
        | .ok rest => .ok ((memberType, v) :: rest)

/-- CIPDataTypeDecoder.decode (cipDataTypes.js lines 43-69): registry check,
then the switch on the type code.  The ARRAY case (decodeArray, lines 71-84)
reads the element type u16BE at 0 and the element count u16BE at 2 and runs
the element loop from offset 4; the STRUCT case (decodeStruct, lines 86-103)
reads the member count u16BE at 0 and runs the member loop from offset 2.
Registry types without a case of their own (only LREAL, 0xCB) reach the
default branch and are returned as the raw buffer. -/
def decodeF : Nat → Nat → List Nat → Bool → Except JsErr CIPValue
  | 0, _, _, _ => .error .outOfFuel
  | fuel + 1, typeCode, data, isBigEndian =>
    match findTypeByCode typeCode with
    | none => .error (.unsupportedDataType typeCode)
    | some _ =>
      if typeCode = 0xC1 then (readUInt8 data 0).map (fun u => .bool (u ≠ 0))
      else if typeCode = 0xC2 then (readInt8 data 0).map .int
      else if typeCode = 0xC3 then
        (if isBigEndian then readInt16BE data 0 else readInt16LE data 0).map .int
      else if typeCode = 0xC4 then
        (if isBigEndian then readInt32BE data 0 else readInt32LE data 0).map .int
      else if typeCode = 0xCA then
        (if isBigEndian then readUInt32BE data 0 else readUInt32LE data 0).map .real
      else if typeCode = 0xDA then
        (readUInt8 data 0).map
          (fun len => .str (((data.drop 1).take len).map (· % 128)))
      else if typeCode = 0xE0 then
        match readUInt16BE data 0 with
        | .error e => .error e
        | .ok elementType =>
          match readUInt16BE data 2 with
          | .error e => .error e
          | .ok elementCount =>
            match arrayLoop (decodeF fuel) data isBigEndian elementType
                elementCount 4 with
            | .error e => .error e
            | .ok elems => .ok (.array elems)
      else if typeCode = 0xE1 then
        match readUInt16BE data 0 with
        | .error e => .error e
        | .ok memberCount =>
          match structLoop (decodeF fuel) data isBigEndian memberCount 2 with
          | .error e => .error e
          | .ok members => .ok (.structv members)
      else .ok (.buffer data)

/-- Fuel budget for the decoder wrapper (nesting-depth bound); see the note
above `arrayLoop`. -/
def fuelBudget : Nat := 64

namespace CIPDataTypeDecoder

/-- CIPDataTypeDecoder.decode(typeCode, data, isBigEndian). -/
def decode (typeCode : Nat) (data : List Nat) (isBigEndian : Bool) :
    Except JsErr CIPValue :=
  decodeF fuelBudget typeCode data isBigEndian

end CIPDataTypeDecoder

/-! ## cipParser.js

JavaScript values handed to CIPParser.encodeData, and the CIPParser class. -/

/-- The values the repository passes to the encoder: numbers (restricted to
the integral JavaScript numbers the claims exercise), booleans, and strings
(as their character-code list). -/
inductive JSValue : Type where
  | num (v : Int)
  | bool (b : Bool)
  | str (chars : List Nat)
  deriving DecidableEq, Repr

/-- JavaScript truthiness of a JSValue (`value ? a : b`): 0 and the empty
string are falsy. -/
def truthy : JSValue → Bool
  | .num v => v != 0
  | .bool b => b
  | .str s => !s.isEmpty

/-- JavaScript ToNumber restricted to the embedded values, as consumed by the
bitwise operators (which then apply ToInt32).  Booleans convert to 0/1.  A
non-numeric string converts to NaN, which ToInt32 maps to 0; numeric strings
are not exercised by any claim or call site, so strings are mapped to 0. -/
def toNumberInt : JSValue → Int
  | .num v => v
  | .bool b => if b then 1 else 0
  | .str _ => 0

/-- String(value) followed by Buffer.from(str, "ascii"): the byte list of the
value's string conversion (each character code taken mod 256 by the latin1
write path). -/
def jsToStringBytes : JSValue → List Nat
  | .num v => (toString v).toList.map Char.toNat
  | .bool b => (if b then "true" else "false").toList.map Char.toNat
  | .str s => s

/-- Buffer.writeInt32LE/BE(value): Node validates that the value is an
integer in the signed 32-bit range (ERR_OUT_OF_RANGE otherwise, and a
TypeError for non-numbers) and stores its two's-complement bytes. -/
def writeInt32Bytes (value : JSValue) (isBigEndian : Bool) :
    Except JsErr (List Nat) :=
  match value with
  | .num v =>
    if v < -2147483648 ∨ 2147483647 < v then .error .rangeError
    else
      .ok (if isBigEndian then be32 ((v % 4294967296).toNat)
        else le32 ((v % 4294967296).toNat))
  | _ => .error .typeError

/-- An argument that may be a Buffer or any other JavaScript value, for the
Buffer.isBuffer checks in the parsers. -/
inductive JSInput : Type where
  | buf (bytes : List Nat)
  | other

/-- The { dataType, value } result of a successful attribute parse. -/
structure AttrResult where
  dataType : Nat
  value : CIPValue

namespace CIPParser

/-- The validateId closure inside buildObjectPath (cipParser.js lines 29-35):
absent (undefined/null) ids yield false, present ids outside [0, 65535] throw
naming the field, valid present ids yield true.  Ids are embedded as `Int`,
so the Number.isInteger guard is always satisfied. -/
def validateId (id : Option Int) (name : String) : Except JsErr Bool :=
  match id with
  | none => .ok false
  | some v =>
    if v < 0 ∨ v > 65535 then .error (.validationError name) else .ok true

/-- The two pushes `path.push(PATH_SEGMENTS.X, id)` for one identifier. -/
def segmentPair (segType : Nat) : Option Int → List Int
  | none => []
  | some v => [(segType : Int), v]

/-- CIPParser.buildObjectPath (cipParser.js lines 28-59).  The hasValidId
computation mirrors the short-circuiting
`validateId(classId) || validateId(instanceId) || validateId(attributeId)`:
a later argument is only validated when every earlier one was absent.
Buffer.from truncates each pushed entry to its low byte. -/
def buildObjectPath (classId instanceId attributeId : Option Int) :
    Except JsErr (List Nat) := do
  let hasValidId ← do
    let b1 ← validateId classId ("Class")
    if b1 then pure true
    else
      let b2 ← validateId instanceId ("Instance")
      if b2 then pure true
      else validateId attributeId ("Attribute")
  if !hasValidId then .error .missingIdentifier
  else
    let path : List Int :=
      segmentPair 0x20 classId ++ segmentPair 0x24 instanceId ++
        segmentPair 0x30 attributeId
    .ok (path.map (fun x => (x % 256).toNat))

/-- CIPParser.encodeData (cipParser.js lines 70-107): the switch on
dataType.code.  Cases exist for BOOL, SINT, INT, DINT, REAL (DINT and REAL
share the integer write), and STRING; every other code, including the
registry codes LREAL (0xCB), ARRAY (0xE0) and STRUCT (0xE1), falls to the
default branch and fails as unsupported.  Only the `code` field of the
dataType argument is consulted, so the parameter is embedded as the code. -/
def encodeData (value : JSValue) (dataTypeCode : Nat) (isBigEndian : Bool) :
    Except JsErr (List Nat) :=
  if dataTypeCode = 0xC1 then .ok [if truthy value then 0xFF else 0x00]
  else if dataTypeCode = 0xC2 then .ok [jsAnd255 (toNumberInt value)]
  else if dataTypeCode = 0xC3 then
    .ok (if isBigEndian then
      [jsAnd255 (jsShr8 (toNumberInt value)), jsAnd255 (toNumberInt value)]
    else
      [jsAnd255 (toNumberInt value), jsAnd255 (jsShr8 (toNumberInt value))])
  else if dataTypeCode = 0xC4 ∨ dataTypeCode = 0xCA then
    writeInt32Bytes value isBigEndian
  else if dataTypeCode = 0xDA then
    let s := (jsToStringBytes value).take 255
    .ok (s.length :: s.map (· % 256))
  else .error (.unsupportedDataType dataTypeCode)

/-- CIPParser.parseAttributeResponse (cipParser.js lines 117-156).  The first
statement of the body (lines 119-126) is
`if (classId === CIP_CLASS_IDS.CONNECTION) ...`, but neither `classId` nor
`CIP_CLASS_IDS` is declared anywhere in the module or in scope: evaluating
the identifier `classId` raises a JavaScript ReferenceError before any of the
documented checks run, for every input. -/
def parseAttributeResponse (response : JSInput) (isBigEndian : Bool) :
    Except JsErr AttrResult :=
  .error (.referenceError ("classId"))

/-- The remainder of CIPParser.parseAttributeResponse (cipParser.js lines
128-155), the documented parsing logic that sits unreachable behind the
ReferenceError: the Buffer check, the minimum-length check, the nonzero
status branch (extended status u16BE at offset 1, descriptor via
CIPErrorParser.parse, raw response attached), and the success branch (type
code u16BE at offset 2, remainder decoded via CIPDataTypeDecoder). -/
def parseAttributeResponseBody (response : JSInput) (isBigEndian : Bool) :
    Except JsErr AttrResult :=
  match response with
  | .other => .error (.responseFormat ("Response must be a Buffer"))
  | .buf r =>
    if r.length < 4 then .error (.responseFormat ("Invalid response length"))
    else do
      let status ← readUInt8 r 0
      if status ≠ 0 then do
        let extendedStatus ← if r.length ≥ 3 then readUInt16BE r 1 else pure 0
        .error (.protocolStatus (CIPErrorParser.parse status extendedStatus) r)
      else do
        let dataTypeCode ← readUInt16BE r 2
        let data := r.drop 4
        let value ← CIPDataTypeDecoder.decode dataTypeCode data isBigEndian
        .ok ⟨dataTypeCode, value⟩

end CIPParser

/-! ## cipClient.js

The connection-parameter constants (CipConnFields.js) and the encapsulation
framer of the CIPClient class. -/

namespace CipConnType

/-- CipConnFields.js: CipConnType.TYPE_PT2PT. -/
def TYPE_PT2PT : Nat := 0x4000

end CipConnType

/-- The CIPClient fields that buildEncapMessage reads: the connection
parameters (owner/type/priority bit-field constituents, defaulted in the
constructor), the session handle, and the 8-byte sender context. -/
structure CIPClientState where
  owner : Nat
  connType : Nat
  priority : Nat
  sessionHandle : Nat
  senderContext : List Nat

/-- Sequential byte stores starting at an offset (List.set leaves the list
unchanged past its end, matching the bounds-clamping of Buffer.copy). -/
def writeBytesAt (buf : List Nat) (off : Nat) (bytes : List Nat) : List Nat :=
  match bytes with
  | [] => buf
  | b :: rest => writeBytesAt (buf.set off b) (off + 1) rest

/-- Buffer.writeUInt16LE(value, offset) in place: Node validates the value
fits 16 bits and the field lies inside the buffer. -/
def writeUInt16LEb (buf : List Nat) (off v : Nat) : Except JsErr (List Nat) :=
  if v ≤ 65535 ∧ off + 2 ≤ buf.length then .ok (writeBytesAt buf off (le16 v))
  else .error .rangeError

/-- Buffer.writeUInt32LE(value, offset) in place. -/
def writeUInt32LEb (buf : List Nat) (off v : Nat) : Except JsErr (List Nat) :=
  if v ≤ 4294967295 ∧ off + 4 ≤ buf.length then
    .ok (writeBytesAt buf off (le32 v))
  else .error .rangeError

/-- source.copy(target, targetStart, sourceStart, sourceEnd). -/
def bufferCopy (source target : List Nat)
    (targetStart sourceStart sourceEnd : Nat) : List Nat :=
  writeBytesAt target targetStart
    ((source.drop sourceStart).take (sourceEnd - sourceStart))

namespace CIPClient

/-- CIPClient.buildEncapMessage (cipClient.js lines 142-161), in the source
order of the writes: the connection-parameter bit-field u16LE at offset 16
first, then command u16LE at 0, payload length u16LE at 2, sessionHandle
u32LE at 4, status 0 u32LE at 8, and finally the 8-byte sender context copied
to offsets 12-19 — overwriting the bit-field at 16-17 — followed by the
payload. -/
def buildEncapMessage (st : CIPClientState) (command : Nat) (data : List Nat) :
    Except JsErr (List Nat) := do
  let encapHeader := List.replicate 24 0
  let encapHeader ← writeUInt16LEb encapHeader 16
    (st.owner ||| st.connType ||| st.priority)
  let encapHeader ← writeUInt16LEb encapHeader 0 command
  let encapHeader ← writeUInt16LEb encapHeader 2 data.length
  let encapHeader ← writeUInt32LEb encapHeader 4 st.sessionHandle
  let encapHeader ← writeUInt32LEb encapHeader 8 0
  let encapHeader := bufferCopy st.senderContext encapHeader 12 0 8
  .ok (encapHeader ++ data)

end CIPClient

/-! ## secureCIPClient.js

The SecureCIPClient session state and its secure send/receive/handshake
operations. -/

/-- The SecureCIPClient instance fields the embedded operations read and
write.  The constructor never assigns `connectionType`, so for a freshly
constructed client it is `none` (undefined); `lastActivity` is wall-clock
time and is not modelled. -/
structure SecureState where
  connectionType : Option Nat
  sessionNonce : List Nat
  sessionHandle : Nat
  sessionActive : Bool
  sequenceNumber : Nat

/-- Node crypto's createHmac("sha256", key).update(m).digest(), abstracted:
HMAC-SHA-256 lives outside the repository, so the secure-client operations
are stated for an arbitrary keyed digest function (key, message) → digest,
used consistently on the send and the receive side.  Chained updates
concatenate their inputs. -/
def HmacModel : Type := List Nat → List Nat → List Nat

/-- Modelled from the spec: SecureCIPClient.buildEncapHeader is invoked at
secureCIPClient.js line 114 but is defined nowhere in the repository (only
this caller exists).  Spec sections 4.5 and 6 fix the header as an opaque
24-byte encapsulation header in front of the secure payload
(encapHeader(24) then data, sequence, mac) without constraining its bytes for
the secure data packet, so the missing function is modelled as an arbitrary
function of the session state, quantified in the theorems about
sendSecureData. -/
def BuildEncapHeaderModel : Type := SecureState → List Nat

namespace SecureCIPClient

/-- SecureCIPClient.sendSecureData (secureCIPClient.js lines 96-123):
point-to-point guard, active-session guard, pre-increment of the sequence
counter written as u32LE, 8-byte MAC = HMAC-SHA-256(nonce, data followed by
sequence bytes) truncated, and the packet header, data, sequence, mac.
Returns the updated state and the transmitted packet. -/
def sendSecureData (hmacSHA256 : HmacModel)
    (buildEncapHeader : BuildEncapHeaderModel)
    (st : SecureState) (data : List Nat) :
    Except JsErr (SecureState × List Nat) :=
  if st.connectionType ≠ some CipConnType.TYPE_PT2PT then
    .error .notPointToPoint
  else if !st.sessionActive then .error .sessionNotActive
  else
    let newSeq := st.sequenceNumber + 1
    if 4294967295 < newSeq then .error .rangeError
    else
      let sequenceBuf := le32 newSeq
      let mac := (hmacSHA256 st.sessionNonce (data ++ sequenceBuf)).take 8
      let securePacket := buildEncapHeader st ++ data ++ sequenceBuf ++ mac
      .ok ({ st with sequenceNumber := newSeq }, securePacket)

/-- SecureCIPClient.receiveWithValidation (lines 125-149), applied to the
received bytes: length check, session-handle check at offset 4, payload =
slice(24, -12), trailing 8 bytes as the received MAC, recomputed MAC =
HMAC-SHA-256(nonce, payload) truncated to 8 bytes. -/
def receiveWithValidation (hmacSHA256 : HmacModel) (st : SecureState)
    (response : List Nat) : Except JsErr (List Nat) :=
  if response.length < 24 then .error .invalidResponseLength
  else do
    let handle ← readUInt32LE response 4
    if handle ≠ st.sessionHandle then .error .sessionHandleMismatch
    else
      let payload := (response.drop 24).take (response.length - 12 - 24)
      let receivedMac := response.drop (response.length - 8)
      let calculatedMac := (hmacSHA256 st.sessionNonce payload).take 8
      if calculatedMac ≠ receivedMac then .error .macVerificationFailed
      else .ok payload

/-- SecureCIPClient.validateSessionResponse (lines 84-93): minimum length 8,
then the u32LE status word at offset 4 must be zero. -/
def validateSessionResponse (response : List Nat) : Except JsErr Unit :=
  if response.length < 8 then .error .invalidSessionResponse
  else do
    let statusCode ← readUInt32LE response 4
    if statusCode ≠ 0 then .error (.sessionRegistrationFailed statusCode)
    else .ok ()

/-- SecureCIPClient.establishSecureSession (lines 49-68), applied to the raw
reply bytes (building and sending the registration packet is transport I/O).
Already-active guard, receiveWithValidation on the reply,
validateSessionResponse on the returned payload, then the session handle is
read from bytes 4-8 of that same payload (`response.slice(4, 8)
.readUInt32LE()`), the sequence counter resets and the session becomes
active. -/
def establishSecureSession (hmacSHA256 : HmacModel) (st : SecureState)
    (raw : List Nat) : Except JsErr SecureState :=
  if st.sessionActive then .error .sessionAlreadyActive
  else do
    let response ← receiveWithValidation hmacSHA256 st raw
    let _ ← validateSessionResponse response
    let handle ← readUInt32LE response 4
    .ok { st with
            sessionHandle := handle
            sequenceNumber := 0
            sessionActive := true }

end SecureCIPClient

/-! ## Remaining definitions used by the theorems -/

/-- The bytes buildObjectPath emits for one identifier: nothing when absent,
otherwise the segment-type byte followed by the identifier's low byte (the
Buffer.from truncation of the pushed value). -/
def segBytes (segType : Nat) : Option Int → List Nat
  | none => []
  | some v => [segType, (v % 256).toNat]

/-! ## Helper lemmas -/

/-- ToInt32 is the identity on the signed 32-bit range. -/
theorem toInt32_eq_self (v : Int) (h1 : -2147483648 ≤ v) (h2 : v ≤ 2147483647) :
    toInt32 v = v := by
  unfold toInt32
  omega

/-- Decoding an INT little-endian from a two-byte buffer. -/
theorem decode_INT_le (b0 b1 : Nat) :
    CIPDataTypeDecoder.decode 0xC3 [b0, b1] false =
      .ok (.int (signed16 (b0 + 256 * b1))) := by
  simp [CIPDataTypeDecoder.decode, fuelBudget, decodeF, findTypeByCode,
    CIP_DATA_TYPES, readInt16LE, readUInt16LE, Except.map]

/-- Decoding an INT big-endian from a two-byte buffer. -/
theorem decode_INT_be (b0 b1 : Nat) :
    CIPDataTypeDecoder.decode 0xC3 [b0, b1] true =
      .ok (.int (signed16 (256 * b0 + b1))) := by
  simp [CIPDataTypeDecoder.decode, fuelBudget, decodeF, findTypeByCode,
    CIP_DATA_TYPES, readInt16BE, readUInt16BE, Except.map]

/-- Decoding a DINT little-endian from a four-byte buffer. -/
theorem decode_DINT_le (b0 b1 b2 b3 : Nat) :
    CIPDataTypeDecoder.decode 0xC4 [b0, b1, b2, b3] false =
      .ok (.int (signed32 (b0 + 256 * b1 + 65536 * b2 + 16777216 * b3))) := by
  simp [CIPDataTypeDecoder.decode, fuelBudget, decodeF, findTypeByCode,
    CIP_DATA_TYPES, readInt32LE, readUInt32LE, Except.map]

/-- Decoding a DINT big-endian from a four-byte buffer. -/
theorem decode_DINT_be (b0 b1 b2 b3 : Nat) :
    CIPDataTypeDecoder.decode 0xC4 [b0, b1, b2, b3] true =
      .ok (.int (signed32 (16777216 * b0 + 65536 * b1 + 256 * b2 + b3))) := by
  simp [CIPDataTypeDecoder.decode, fuelBudget, decodeF, findTypeByCode,
    CIP_DATA_TYPES, readInt32BE, readUInt32BE, Except.map]

/-- Decoding a REAL little-endian yields the float with the u32LE bit
pattern of the buffer. -/
theorem decode_REAL_le (b0 b1 b2 b3 : Nat) :
    CIPDataTypeDecoder.decode 0xCA [b0, b1, b2, b3] false =
      .ok (.real (b0 + 256 * b1 + 65536 * b2 + 16777216 * b3)) := by
  simp [CIPDataTypeDecoder.decode, fuelBudget, decodeF, findTypeByCode,
    CIP_DATA_TYPES, readUInt32LE, Except.map]

/-- Decoding a REAL big-endian yields the float with the u32BE bit pattern
of the buffer. -/
theorem decode_REAL_be (b0 b1 b2 b3 : Nat) :
    CIPDataTypeDecoder.decode 0xCA [b0, b1, b2, b3] true =
      .ok (.real (16777216 * b0 + 65536 * b1 + 256 * b2 + b3)) := by
  simp [CIPDataTypeDecoder.decode, fuelBudget, decodeF, findTypeByCode,
    CIP_DATA_TYPES, readUInt32BE, Except.map]

/-! ## Claim theorems -/

/-- Claim C1.  The claim says parseAttributeResponse returns
{ dataType, value } for status-0 buffers of length at least 4, and fails
ResponseFormatError for short or non-Buffer inputs.  In fact the function
begins with a leftover block that reads the undeclared identifier `classId`,
so every call fails with a ReferenceError; the documented logic (embedded as
parseAttributeResponseBody) would return dataType 0xC1 and value true on the
well-formed response [0, 0, 0, 0xC1, 0xFF]. -/
theorem c1_parseAttributeResponse_always_reference_error :
    (∀ response isBigEndian,
      CIPParser.parseAttributeResponse response isBigEndian =
        .error (.referenceError ("classId"))) ∧
    CIPParser.parseAttributeResponseBody (.buf [0x00, 0x00, 0x00, 0xC1, 0xFF])
      false = .ok ⟨0xC1, .bool true⟩ :=
  ⟨fun _ _ => rfl, rfl⟩

/-- Claim C2.  The claim (and the repository's own test) says
buildObjectPath(1, 70000, 3) fails with a ValidationError.  In fact the
short-circuiting hasValidId disjunction stops validating after the valid
classId, so the out-of-range instanceId 70000 is never checked; the call
succeeds and Buffer.from truncates 70000 to its low byte 0x70. -/
theorem c2_buildObjectPath_skips_validation :
    CIPParser.buildObjectPath (some 1) (some 70000) (some 3) =
      .ok [0x20, 0x01, 0x24, 0x70, 0x30, 0x03] := rfl

/-- Claim C3.  The claim says ARRAY decoding advances by the element type's
fixed size and that unknown element types are extracted as zero-length data
without failing.  In fact the size lookup CIP_DATA_TYPES[elementType] indexes
the name-keyed registry with the numeric code and always yields size 0
(fourth conjunct), so: an array of two INTs fails with a RangeError because
the first element is decoded from an empty slice (first conjunct); an array
whose element type is not in the registry fails UnsupportedDataType inside
the recursive decode rather than extracting zero-length data (second
conjunct); an unknown top-level code fails UnsupportedDataType as claimed
(third conjunct). -/
theorem c3_decodeArray_zero_size_and_inner_failures :
    (CIPDataTypeDecoder.decode 0xE0 [0x00, 0xC3, 0x00, 0x02, 0x11, 0x11, 0x22, 0x22]
        false = .error .rangeError) ∧
    (CIPDataTypeDecoder.decode 0xE0 [0x99, 0x99, 0x00, 0x01] false =
      .error (.unsupportedDataType 0x9999)) ∧
    (CIPDataTypeDecoder.decode 0x9999 [] false =
      .error (.unsupportedDataType 0x9999)) ∧
    elementSizeLookup 0xC3 = 0 :=
  ⟨rfl, rfl, rfl, rfl⟩

/-- Claim C9.  For every status code, the descriptor returned by
CIPErrorParser.parse is recoverable exactly for the codes 0x02, 0x06, 0x07;
its code field always echoes the numeric status code; and a status code
absent from the catalog yields the UnknownError descriptor. -/
theorem c9_parse_recoverable_and_unknown (statusCode extendedStatus : Nat) :
    ((CIPErrorParser.parse statusCode extendedStatus).isRecoverable = true ↔
      statusCode = 0x02 ∨ statusCode = 0x06 ∨ statusCode = 0x07) ∧
    (CIPErrorParser.parse statusCode extendedStatus).code = statusCode ∧
    (lookupErrorCode statusCode = none →
      (CIPErrorParser.parse statusCode extendedStatus).name = "UnknownError") := by
  refine ⟨?_, rfl, ?_⟩
  · simp [CIPErrorParser.parse, CIPErrorParser.isRecoverableError]
  · intro h
    simp [CIPErrorParser.parse, h]

/-- Claim C9 witness: status code 0x50 has no catalog entry; parse still
echoes it in the code field, classifies it unrecoverable, and names it
UnknownError. -/
theorem c9_witness :
    (CIPErrorParser.parse 0x50 0).name = "UnknownError" ∧
    (CIPErrorParser.parse 0x50 0).code = 0x50 ∧
    (CIPErrorParser.parse 0x50 0).isRecoverable = false := by
  have h := c9_parse_recoverable_and_unknown 0x50 0
  refine ⟨h.2.2 rfl, h.2.1, ?_⟩
  by_contra hb
  simp only [Bool.not_eq_false] at hb
  exact absurd (h.1.mp hb) (by decide)

/-- Claim C4 counterexample.  The claim says encodeData succeeds for every
registry type including LREAL (0xCB); in fact LREAL has no case in
encodeData's switch and falls to the default branch, failing
UnsupportedDataType. -/
theorem c4_counterexample_LREAL_unsupported :
    CIPParser.encodeData (.num 1) 0xCB false =
      .error (.unsupportedDataType 0xCB) := rfl

/-- Claim C4 (amended).  encodeData fails UnsupportedDataType exactly for
type codes outside the set handled by its switch — BOOL 0xC1, SINT 0xC2,
INT 0xC3, DINT 0xC4, REAL 0xCA, STRING 0xDA; in particular it fails for the
registry types LREAL 0xCB, ARRAY 0xE0 and STRUCT 0xE1 as well as for the
non-registry code 0xFFFF. -/
theorem c4_encodeData_unsupported_iff (value : JSValue) (code : Nat)
    (be : Bool) :
    CIPParser.encodeData value code be = .error (.unsupportedDataType code) ↔
      ¬(code = 0xC1 ∨ code = 0xC2 ∨ code = 0xC3 ∨ code = 0xC4 ∨
        code = 0xCA ∨ code = 0xDA) := by
  unfold CIPParser.encodeData
  split_ifs with h1 h2 h3 h4 h5
  · simp [h1]
  · simp [h2]
  · simp [h3]
  · rcases value with v | b | s
    · simp only [writeInt32Bytes]
      split_ifs <;> simp <;> tauto
    · simp only [writeInt32Bytes]
      simp
      tauto
    · simp only [writeInt32Bytes]
      simp
      tauto
  · simp [h5]
  · simp
    tauto

/-- Claim C4 witness: the unsupported-iff characterization applied at the
registry type LREAL (0xCB) and at the non-registry code 0xFFFF, and encoding
succeeds for the INT code. -/
theorem c4_witness :
    CIPParser.encodeData (.num 2) 0xCB false =
      .error (.unsupportedDataType 0xCB) ∧
    CIPParser.encodeData (.num 2) 0xFFFF false =
      .error (.unsupportedDataType 0xFFFF) ∧
    ¬(CIPParser.encodeData (.num 2) 0xC3 false =
      .error (.unsupportedDataType 0xC3)) :=
  ⟨(c4_encodeData_unsupported_iff (.num 2) 0xCB false).mpr (by decide),
   (c4_encodeData_unsupported_iff (.num 2) 0xFFFF false).mpr (by decide),
   fun h => by
    have := (c4_encodeData_unsupported_iff (.num 2) 0xC3 false).mp h
    exact this (by decide)⟩

/-- Claim C5 counterexample.  The claimed round-trip
decode(LREAL, encode(v, LREAL, be), be) == v is impossible even at v = 1:
encodeData has no LREAL case and fails UnsupportedDataType, so there are no
encoded bytes to decode. -/
theorem c5_counterexample_LREAL_roundtrip_impossible :
    ¬ ∃ bytes, CIPParser.encodeData (.num 1) 0xCB false = .ok bytes ∧
      CIPDataTypeDecoder.decode 0xCB bytes false = .ok (.int 1) := by
  rintro ⟨bytes, h, -⟩
  exact absurd h (by simp [CIPParser.encodeData])

/-- Claim C5 (amended).  The round-trip
decode(T, encode(v, T, be), be) == v holds for INT on the signed 16-bit range
and for DINT on the signed 32-bit range, for both endiannesses.  It fails for
LREAL, whose encode is rejected as unsupported for every value, and it fails
for REAL: encodeData writes the value as a 32-bit integer while decode
re-reads the bytes as an IEEE-754 float, so the decoded result is the float
whose bit pattern is v's two's-complement 32-bit encoding, not v. -/
theorem c5_roundtrip_amended (v : Int) (be : Bool) :
    (-32768 ≤ v → v ≤ 32767 →
      ∃ bytes, CIPParser.encodeData (.num v) 0xC3 be = .ok bytes ∧
        CIPDataTypeDecoder.decode 0xC3 bytes be = .ok (.int v)) ∧
    (-2147483648 ≤ v → v ≤ 2147483647 →
      ∃ bytes, CIPParser.encodeData (.num v) 0xC4 be = .ok bytes ∧
        CIPDataTypeDecoder.decode 0xC4 bytes be = .ok (.int v)) ∧
    (CIPParser.encodeData (.num v) 0xCB be =
      .error (.unsupportedDataType 0xCB)) ∧
    (-2147483648 ≤ v → v ≤ 2147483647 →
      ∃ bytes, CIPParser.encodeData (.num v) 0xCA be = .ok bytes ∧
        CIPDataTypeDecoder.decode 0xCA bytes be =
          .ok (.real ((v % 4294967296).toNat))) := by
  refine ⟨?_, ?_, rfl, ?_⟩
  · intro h1 h2
    cases be
    · refine ⟨[jsAnd255 v, jsAnd255 (jsShr8 v)], rfl, ?_⟩
      rw [decode_INT_le]
      have hx : signed16 (jsAnd255 v + 256 * jsAnd255 (jsShr8 v)) = v := by
        unfold jsAnd255 jsShr8 toInt32 signed16
        split_ifs <;> omega
      rw [hx]
    · refine ⟨[jsAnd255 (jsShr8 v), jsAnd255 v], rfl, ?_⟩
      rw [decode_INT_be]
      have hx : signed16 (256 * jsAnd255 (jsShr8 v) + jsAnd255 v) = v := by
        unfold jsAnd255 jsShr8 toInt32 signed16
        split_ifs <;> omega
      rw [hx]
  · intro h1 h2
    have hr : ¬(v < -2147483648 ∨ 2147483647 < v) := by omega
    cases be
    · refine ⟨le32 ((v % 4294967296).toNat), ?_, ?_⟩
      · simp [CIPParser.encodeData, writeInt32Bytes, hr]
      · rw [show le32 ((v % 4294967296).toNat) =
          [(v % 4294967296).toNat % 256,
           (v % 4294967296).toNat / 256 % 256,
           (v % 4294967296).toNat / 65536 % 256,
           (v % 4294967296).toNat / 16777216 % 256] from rfl]
        rw [decode_DINT_le]
        have hx : signed32 ((v % 4294967296).toNat % 256 +
            256 * ((v % 4294967296).toNat / 256 % 256) +
            65536 * ((v % 4294967296).toNat / 65536 % 256) +
            16777216 * ((v % 4294967296).toNat / 16777216 % 256)) = v := by
          unfold signed32
          split_ifs <;> omega
        rw [hx]
    · refine ⟨be32 ((v % 4294967296).toNat), ?_, ?_⟩
      · simp [CIPParser.encodeData, writeInt32Bytes, hr]
      · rw [show be32 ((v % 4294967296).toNat) =
          [(v % 4294967296).toNat / 16777216 % 256,
           (v % 4294967296).toNat / 65536 % 256,
           (v % 4294967296).toNat / 256 % 256,
           (v % 4294967296).toNat % 256] from rfl]
        rw [decode_DINT_be]
        have hx : signed32 (16777216 * ((v % 4294967296).toNat / 16777216 % 256) +
            65536 * ((v % 4294967296).toNat / 65536 % 256) +
            256 * ((v % 4294967296).toNat / 256 % 256) +
            (v % 4294967296).toNat % 256) = v := by
          unfold signed32
          split_ifs <;> omega
        rw [hx]
  · intro h1 h2
    have hr : ¬(v < -2147483648 ∨ 2147483647 < v) := by omega
    cases be
    · refine ⟨le32 ((v % 4294967296).toNat), ?_, ?_⟩
      · simp [CIPParser.encodeData, writeInt32Bytes, hr]
      · rw [show le32 ((v % 4294967296).toNat) =
          [(v % 4294967296).toNat % 256,
           (v % 4294967296).toNat / 256 % 256,
           (v % 4294967296).toNat / 65536 % 256,
           (v % 4294967296).toNat / 16777216 % 256] from rfl]
        rw [decode_REAL_le]
        have hx : (v % 4294967296).toNat % 256 +
            256 * ((v % 4294967296).toNat / 256 % 256) +
            65536 * ((v % 4294967296).toNat / 65536 % 256) +
            16777216 * ((v % 4294967296).toNat / 16777216 % 256) =
            (v % 4294967296).toNat := by omega
        rw [hx]
    · refine ⟨be32 ((v % 4294967296).toNat), ?_, ?_⟩
      · simp [CIPParser.encodeData, writeInt32Bytes, hr]
      · rw [show be32 ((v % 4294967296).toNat) =
          [(v % 4294967296).toNat / 16777216 % 256,
           (v % 4294967296).toNat / 65536 % 256,
           (v % 4294967296).toNat / 256 % 256,
           (v % 4294967296).toNat % 256] from rfl]
        rw [decode_REAL_be]
        have hx : 16777216 * ((v % 4294967296).toNat / 16777216 % 256) +
            65536 * ((v % 4294967296).toNat / 65536 % 256) +
            256 * ((v % 4294967296).toNat / 256 % 256) +
            (v % 4294967296).toNat % 256 = (v % 4294967296).toNat := by omega
        rw [hx]

/-- Claim C5 witness: the INT round-trip at v = 1234 little-endian, and the
LREAL encode failure at v = 1234 big-endian. -/
theorem c5_witness :
    (∃ bytes, CIPParser.encodeData (.num 1234) 0xC3 false = .ok bytes ∧
      CIPDataTypeDecoder.decode 0xC3 bytes false = .ok (.int 1234)) ∧
    CIPParser.encodeData (.num 1234) 0xCB true =
      .error (.unsupportedDataType 0xCB) :=
  ⟨(c5_roundtrip_amended 1234 false).1 (by norm_num) (by norm_num),
   (c5_roundtrip_amended 1234 true).2.2.1⟩

/-- Claim C7.  For identifiers in [0, 65535], buildObjectPath emits, for each
present id in the fixed order class, instance, attribute, the segment-type
byte (CLASS 0x20, INSTANCE 0x24, ATTRIBUTE 0x30) followed by the id's encoded
byte, and fails with the MissingIdentifier error when no identifier is
present. -/
theorem c7_buildObjectPath_order_and_missing (c i a : Option Int)
    (hc : ∀ v, c = some v → 0 ≤ v ∧ v ≤ 65535)
    (hi : ∀ v, i = some v → 0 ≤ v ∧ v ≤ 65535)
    (ha : ∀ v, a = some v → 0 ≤ v ∧ v ≤ 65535) :
    (¬(c = none ∧ i = none ∧ a = none) →
      CIPParser.buildObjectPath c i a =
        .ok (segBytes 0x20 c ++ segBytes 0x24 i ++ segBytes 0x30 a)) ∧
    CIPParser.buildObjectPath none none none = .error .missingIdentifier := by
  refine ⟨?_, rfl⟩
  intro hne
  rcases c with _ | vc
  · rcases i with _ | vi
    · rcases a with _ | va
      · exact absurd ⟨rfl, rfl, rfl⟩ hne
      · obtain ⟨ha1, ha2⟩ := ha va rfl
        have hva : ¬(va < 0 ∨ va > 65535) := by omega
        simp [CIPParser.buildObjectPath, CIPParser.validateId,
          CIPParser.segmentPair, segBytes, hva, Bind.bind, Except.bind, Pure.pure, Except.pure]
    · obtain ⟨hi1, hi2⟩ := hi vi rfl
      have hvi : ¬(vi < 0 ∨ vi > 65535) := by omega
      rcases a with _ | va
      · simp [CIPParser.buildObjectPath, CIPParser.validateId,
          CIPParser.segmentPair, segBytes, hvi, Bind.bind, Except.bind, Pure.pure, Except.pure]
      · simp [CIPParser.buildObjectPath, CIPParser.validateId,
          CIPParser.segmentPair, segBytes, hvi, Bind.bind, Except.bind, Pure.pure, Except.pure]
  · obtain ⟨hc1, hc2⟩ := hc vc rfl
    have hvc : ¬(vc < 0 ∨ vc > 65535) := by omega
    rcases i with _ | vi <;> rcases a with _ | va <;>
      simp [CIPParser.buildObjectPath, CIPParser.validateId,
        CIPParser.segmentPair, segBytes, hvc, Bind.bind, Except.bind, Pure.pure, Except.pure]

/-- Claim C7 witness: buildObjectPath(1, 2, 3) yields
[0x20, 1, 0x24, 2, 0x30, 3], buildObjectPath(10, absent, absent) yields
[0x20, 10], and buildObjectPath() fails MissingIdentifier. -/
theorem c7_witness :
    CIPParser.buildObjectPath (some 1) (some 2) (some 3) =
      .ok [0x20, 0x01, 0x24, 0x02, 0x30, 0x03] ∧
    CIPParser.buildObjectPath (some 10) none none = .ok [0x20, 0x0A] ∧
    CIPParser.buildObjectPath none none none = .error .missingIdentifier := by
  have h1 := c7_buildObjectPath_order_and_missing (some 1) (some 2) (some 3)
    (by rintro v ⟨rfl⟩; omega) (by rintro v ⟨rfl⟩; omega)
    (by rintro v ⟨rfl⟩; omega)
  have h2 := c7_buildObjectPath_order_and_missing (some 10) none none
    (by rintro v ⟨rfl⟩; omega) (by rintro v h; cases h)
    (by rintro v h; cases h)
  refine ⟨?_, ?_, h1.2⟩
  · have := h1.1 (by simp)
    simpa [segBytes] using this
  · have := h2.1 (by simp)
    simpa [segBytes] using this

/-- Claim C6.  sendSecureData fails NotPointToPoint unless the connection
type is point-to-point (0x4000), fails SessionNotActive unless the session is
active, and otherwise increments the sequence counter (strict increase per
sent message) and transmits header, data, sequence bytes (u32LE of the new
counter), then the 8-byte MAC, where the MAC is the truncated HMAC-SHA-256
keyed by the session nonce over data followed by the sequence bytes.  Stated
for every hmac realization and every realization of the missing
buildEncapHeader (see BuildEncapHeaderModel). -/
theorem c6_sendSecureData_guards_mac_and_packet (hmacSHA256 : HmacModel)
    (buildEncapHeader : BuildEncapHeaderModel) (st : SecureState)
    (data : List Nat) :
    (st.connectionType ≠ some CipConnType.TYPE_PT2PT →
      SecureCIPClient.sendSecureData hmacSHA256 buildEncapHeader st data =
        .error .notPointToPoint) ∧
    (st.connectionType = some CipConnType.TYPE_PT2PT →
      st.sessionActive = false →
      SecureCIPClient.sendSecureData hmacSHA256 buildEncapHeader st data =
        .error .sessionNotActive) ∧
    (st.connectionType = some CipConnType.TYPE_PT2PT →
      st.sessionActive = true → st.sequenceNumber + 1 ≤ 4294967295 →
      SecureCIPClient.sendSecureData hmacSHA256 buildEncapHeader st data =
        .ok ({ st with sequenceNumber := st.sequenceNumber + 1 },
          buildEncapHeader st ++ data ++ le32 (st.sequenceNumber + 1) ++
            (hmacSHA256 st.sessionNonce
              (data ++ le32 (st.sequenceNumber + 1))).take 8) ∧
      st.sequenceNumber < st.sequenceNumber + 1) := by
  refine ⟨?_, ?_, ?_⟩
  · intro h
    simp [SecureCIPClient.sendSecureData, h]
  · intro h1 h2
    simp [SecureCIPClient.sendSecureData, h1, h2]
  · intro h1 h2 h3
    refine ⟨?_, by omega⟩
    have hns : ¬(4294967295 < st.sequenceNumber + 1) := by omega
    simp [SecureCIPClient.sendSecureData, h1, h2, hns]

/-- Claim C6 witness: with a constant hmac and header model, a point-to-point
active session at sequence number 5 sending [1, 2] transmits
header, data, sequence 6, mac, and the stored counter becomes 6. -/
theorem c6_witness :
    SecureCIPClient.sendSecureData (fun _ _ => List.replicate 32 0)
      (fun _ => List.replicate 24 0)
      ⟨some 0x4000, List.replicate 16 0, 0, true, 5⟩ [1, 2] =
    .ok (⟨some 0x4000, List.replicate 16 0, 0, true, 6⟩,
      List.replicate 24 0 ++ [1, 2] ++ le32 6 ++
        (List.replicate 32 0).take 8) := by
  have h := (c6_sendSecureData_guards_mac_and_packet
    (fun _ _ => List.replicate 32 0) (fun _ => List.replicate 24 0)
    ⟨some 0x4000, List.replicate 16 0, 0, true, 5⟩ [1, 2]).2.2 rfl rfl
    (by norm_num)
  exact h.1

/-- A reply payload accepted by validateSessionResponse has a zero 32-bit
status word at offset 4. -/
theorem validateSessionResponse_ok_status (response : List Nat) (u : Unit)
    (h : SecureCIPClient.validateSessionResponse response = .ok u) :
    readUInt32LE response 4 = .ok 0 := by
  unfold SecureCIPClient.validateSessionResponse at h
  split_ifs at h with hlen
  revert h
  cases readUInt32LE response 4 with
  | error e => intro h; simp [Bind.bind, Except.bind] at h
  | ok s =>
    intro h
    simp only [Bind.bind, Except.bind] at h
    split_ifs at h with hs <;> simp_all

/-- Claim C10.  Every reply accepted by establishSecureSession leaves the
session with sessionHandle 0: the validated payload's 32-bit word at offset 4
must be zero and the handle is read back from those same bytes; consequently
receiveWithValidation on the established session only accepts replies whose
embedded handle (bytes 4-8) is 0. -/
theorem c10_established_handle_is_zero (hmacSHA256 : HmacModel)
    (st : SecureState) (raw : List Nat) (st' : SecureState)
    (h : SecureCIPClient.establishSecureSession hmacSHA256 st raw = .ok st') :
    st'.sessionHandle = 0 ∧
    ∀ resp payload,
      SecureCIPClient.receiveWithValidation hmacSHA256 st' resp =
        .ok payload →
      readUInt32LE resp 4 = .ok 0 := by
  have hmain : st'.sessionHandle = 0 := by
    unfold SecureCIPClient.establishSecureSession at h
    split_ifs at h with hact
    revert h
    cases hrecv : SecureCIPClient.receiveWithValidation hmacSHA256 st raw with
    | error e => intro h; simp [Bind.bind, Except.bind] at h
    | ok response =>
      cases hval : SecureCIPClient.validateSessionResponse response with
      | error e => intro h; simp [Bind.bind, Except.bind, hval] at h
      | ok u =>
        intro h
        have hzero := validateSessionResponse_ok_status response u hval
        simp only [Bind.bind, Except.bind] at h
        simp only [hval, hzero, Except.ok.injEq] at h
        rw [← h]
  refine ⟨hmain, ?_⟩
  intro resp payload hr
  unfold SecureCIPClient.receiveWithValidation at hr
  split_ifs at hr with hlen
  revert hr
  cases readUInt32LE resp 4 with
  | error e => intro hr; simp [Bind.bind, Except.bind] at hr
  | ok handle =>
    intro hr
    simp only [Bind.bind, Except.bind] at hr
    split_ifs at hr with hne <;> simp_all

/-- Claim C10 witness: establishing against an all-zero 44-byte reply (valid
header with embedded handle 0, zero status, zero MAC under the constant hmac)
activates the session with handle 0. -/
theorem c10_witness :
    SecureCIPClient.establishSecureSession (fun _ _ => List.replicate 32 0)
      ⟨none, List.replicate 16 0, 0, false, 7⟩ (List.replicate 44 0) =
      .ok ⟨none, List.replicate 16 0, 0, true, 0⟩ ∧
    (⟨none, List.replicate 16 0, 0, true, 0⟩ : SecureState).sessionHandle
      = 0 := by
  refine ⟨by rfl, ?_⟩
  exact (c10_established_handle_is_zero (fun _ _ => List.replicate 32 0)
    ⟨none, List.replicate 16 0, 0, false, 7⟩ (List.replicate 44 0)
    ⟨none, List.replicate 16 0, 0, true, 0⟩ (by rfl)).1

/-- Claim C8.  For in-range field values (command and payload length fitting
16 bits, session handle fitting 32 bits, an 8-byte sender context), the
24-byte header built by buildEncapMessage reads back at the documented
offsets exactly the supplied command (u16LE at 0), payload byte length
(u16LE at 2), sessionHandle (u32LE at 4) and senderContext (8 bytes at
12) — the sender-context copy is the last header write and overwrites the
connection-parameter bit-field earlier written at offset 16. -/
theorem c8_buildEncapMessage_readback (st : CIPClientState) (command : Nat)
    (data : List Nat)
    (hcmd : command ≤ 65535) (hlen : data.length ≤ 65535)
    (hhandle : st.sessionHandle ≤ 4294967295)
    (hbits : st.owner ||| st.connType ||| st.priority ≤ 65535)
    (hctx : st.senderContext.length = 8) :
    ∃ msg, CIPClient.buildEncapMessage st command data = .ok msg ∧
      readUInt16LE msg 0 = .ok command ∧
      readUInt16LE msg 2 = .ok data.length ∧
      readUInt32LE msg 4 = .ok st.sessionHandle ∧
      (msg.drop 12).take 8 = st.senderContext := by
  obtain ⟨c0, c1, c2, c3, c4, c5, c6, c7, hsc⟩ :
      ∃ c0 c1 c2 c3 c4 c5 c6 c7,
        st.senderContext = [c0, c1, c2, c3, c4, c5, c6, c7] := by
    rcases hsc : st.senderContext with _ | ⟨c0, l⟩ <;> rw [hsc] at hctx <;>
      simp at hctx
    rcases l with _ | ⟨c1, l⟩ <;> simp at hctx
    rcases l with _ | ⟨c2, l⟩ <;> simp at hctx
    rcases l with _ | ⟨c3, l⟩ <;> simp at hctx
    rcases l with _ | ⟨c4, l⟩ <;> simp at hctx
    rcases l with _ | ⟨c5, l⟩ <;> simp at hctx
    rcases l with _ | ⟨c6, l⟩ <;> simp at hctx
    rcases l with _ | ⟨c7, l⟩ <;> simp at hctx
    rcases l with _ | ⟨c8, l⟩
    · exact ⟨c0, c1, c2, c3, c4, c5, c6, c7, rfl⟩
    · simp at hctx
  refine ⟨[command % 256, command / 256 % 256, data.length % 256,
    data.length / 256 % 256, st.sessionHandle % 256,
    st.sessionHandle / 256 % 256, st.sessionHandle / 65536 % 256,
    st.sessionHandle / 16777216 % 256, 0, 0, 0, 0,
    c0, c1, c2, c3, c4, c5, c6, c7, 0, 0, 0, 0] ++ data,
    ?_, ?_, ?_, ?_, ?_⟩
  · simp [CIPClient.buildEncapMessage, writeUInt16LEb, writeUInt32LEb,
      bufferCopy, writeBytesAt, le16, le32, hsc, hcmd, hlen, hhandle, hbits,
      Bind.bind, Except.bind, List.set]
  · unfold readUInt16LE
    rw [if_pos (by simp)]
    simp only [List.cons_append, List.getD_cons_zero, List.getD_cons_succ,
      Except.ok.injEq]
    omega
  · unfold readUInt16LE
    rw [if_pos (by simp)]
    simp only [List.cons_append, List.getD_cons_zero, List.getD_cons_succ,
      Except.ok.injEq]
    omega
  · unfold readUInt32LE
    rw [if_pos (by simp)]
    simp only [List.cons_append, List.getD_cons_zero, List.getD_cons_succ,
      Except.ok.injEq]
    omega
  · simp [hsc]

/-- Claim C8 witness: a concrete client state (handle 0x12345678, sender
context bytes 65..72, default connection parameters) and command 0x65 with a
3-byte payload reads back all four fields. -/
theorem c8_witness :
    ∃ msg, CIPClient.buildEncapMessage
        ⟨0, 0x4000, 0x0800, 0x12345678, [65, 66, 67, 68, 69, 70, 71, 72]⟩
        0x65 [1, 2, 3] = .ok msg ∧
      readUInt16LE msg 0 = .ok 0x65 ∧
      readUInt16LE msg 2 = .ok 3 ∧
      readUInt32LE msg 4 = .ok 0x12345678 ∧
      (msg.drop 12).take 8 = [65, 66, 67, 68, 69, 70, 71, 72] := by
  have h := c8_buildEncapMessage_readback
    ⟨0, 0x4000, 0x0800, 0x12345678, [65, 66, 67, 68, 69, 70, 71, 72]⟩
    0x65 [1, 2, 3] (by norm_num) (by norm_num) (by norm_num) (by decide)
    (by decide)
  simpa using h
